import Mathlib

/-!
Verification of the RozoIntents Soroban contract
(`src/stellar/contracts/rozo-intents/src/lib.rs` and friends).

The contract is shallowly embedded: contract storage becomes an explicit
`ContractState`, the ledger timestamp becomes a `now : Nat` parameter,
token transfers become an explicit effect list, and fallible entry points
return `Except Error`.  A failing call performs no state change (the host
chain executes each call as an all-or-nothing transaction), which the
embedding reflects by returning only the error.  The host SHA-256
primitive is an explicit function parameter `sha256 : List Nat → Bytes32`;
every theorem about hashing is generic in it, and witnesses instantiate it
with a concrete stand-in.
-/

namespace RozoIntents

/-! ## Byte-level encodings -/

/-- Big-endian encoding of `n` into exactly `w` bytes (the value is taken
mod `256 ^ w`, as fixed-width machine encodings do). -/
def natToBeBytes : Nat → Nat → List Nat
  | 0, _ => []
  | w + 1, n => natToBeBytes w (n / 256) ++ [n % 256]

/-- Big-endian decoding of a byte list to a natural number. -/
def beBytesToNat (l : List Nat) : Nat :=
  l.foldl (fun a b => a * 256 + b) 0

/-- Rust `u64::to_be_bytes`: 8 big-endian bytes. -/
def u64be (n : Nat) : List Nat := natToBeBytes 8 n

/-- Rust `i128::to_be_bytes`: 16 big-endian bytes of the two's-complement value. -/
def i128be (x : Int) : List Nat := natToBeBytes 16 (x % (2 ^ 128 : Int)).toNat

/-- Rust `i128::from_be_bytes`: two's-complement decoding of 16 bytes. -/
def i128FromBeBytes (l : List Nat) : Int :=
  let n := beBytesToNat l
  if n < 2 ^ 127 then (n : Int) else (n : Int) - 2 ^ 128

theorem natToBeBytes_length (w n : Nat) : (natToBeBytes w n).length = w := by
  induction w generalizing n with
  | zero => rfl
  | succ w ih => simp [natToBeBytes, ih]

theorem foldl_base256_acc (l : List Nat) (a : Nat) :
    l.foldl (fun a b => a * 256 + b) a =
      a * 256 ^ l.length + l.foldl (fun a b => a * 256 + b) 0 := by
  induction l generalizing a with
  | nil => simp
  | cons b l ih =>
      simp only [List.foldl_cons, List.length_cons]
      rw [ih (a * 256 + b), ih (0 * 256 + b)]
      ring

theorem beBytesToNat_append (l₁ l₂ : List Nat) :
    beBytesToNat (l₁ ++ l₂) =
      beBytesToNat l₁ * 256 ^ l₂.length + beBytesToNat l₂ := by
  simp only [beBytesToNat, List.foldl_append]
  exact foldl_base256_acc l₂ _

theorem beBytesToNat_natToBeBytes (w n : Nat) :
    beBytesToNat (natToBeBytes w n) = n % 256 ^ w := by
  induction w generalizing n with
  | zero => simp [natToBeBytes, beBytesToNat, Nat.mod_one]
  | succ w ih =>
      rw [natToBeBytes, beBytesToNat_append, ih]
      have h1 : beBytesToNat [n % 256] = n % 256 := by
        simp [beBytesToNat]
      rw [h1]
      have h2 : (256 : Nat) ^ (w + 1) = 256 * 256 ^ w := by ring
      rw [h2, Nat.mod_mul]
      simp only [List.length_cons, List.length_nil, pow_one]
      ring

/-! ## Canonical 32-byte values and addresses -/

/-- A 32-byte value (`BytesN<32>` in the source). -/
abbrev Bytes32 := { l : List Nat // l.length = 32 }

/-- The all-zero 32-byte value (`ZERO_BYTES32`). -/
def zeroBytes32 : Bytes32 := ⟨List.replicate 32 0, by simp⟩

/--
A Stellar host `Address`.  Its XDR form is a discriminant (account vs
contract) together with a raw 32-byte key, which is exactly the
information the contract ever extracts from it, so the embedding models
an address as that pair.
-/
structure Address where
  is_account : Bool
  key : Bytes32
deriving DecidableEq

/-- Source `address_to_bytes32`: extract the raw 32-byte identifier from an
address (Ed25519 key for accounts, contract id for contracts). -/
def address_to_bytes32 (a : Address) : Bytes32 := a.key

/-- Source `bytes32_to_address_typed`: rebuild an address of the given type from
its raw 32-byte identifier. -/
def bytes32_to_address_typed (b : Bytes32) (is_account : Bool) : Address :=
  ⟨is_account, b⟩

/-- Source `bytes32_to_address`: defaults to a contract address. -/
def bytes32_to_address (b : Bytes32) : Address :=
  bytes32_to_address_typed b false

/-! ## Contract data types (`types.rs`, `errors.rs`) -/

inductive IntentStatus where
  | Pending
  | Filled
  | Failed
  | Refunded
deriving DecidableEq

inductive RelayerType where
  | None
  | Rozo
  | External
deriving DecidableEq

inductive Error where
  | AlreadyInitialized
  | NotInitialized
  | NotOwner
  | NotRelayer
  | NotMessenger
  | NotAuthorized
  | IntentAlreadyExists
  | IntentNotFound
  | InvalidStatus
  | IntentExpired
  | IntentNotExpired
  | InvalidAmount
  | InvalidDeadline
  | InvalidFee
  | InvalidPayload
  | UntrustedSource
  | ChainNotFound
  | WrongChain
  | TransferFailed
  | NotAssignedRelayer
  | NotAuthorizedRelayer
  | AlreadyFilled
  | FillHashMismatch
  | InvalidMessenger
deriving DecidableEq

/-- The source-chain `Intent` record, as constructed in `lib.rs`. -/
structure Intent where
  intent_id : Bytes32
  sender : Address
  refund_address : Address
  source_token : Address
  source_amount : Int
  destination_chain_id : Nat
  destination_token : Bytes32
  receiver : Bytes32
  destination_amount : Int
  deadline : Nat
  created_at : Nat
  status : IntentStatus
  relayer : Bytes32
deriving DecidableEq

/-- The `IntentData` snapshot passed to `fill_and_notify` and rebuilt by
`complete_fill`. -/
structure IntentData where
  intent_id : Bytes32
  sender : Bytes32
  refund_address : Bytes32
  source_token : Bytes32
  source_amount : Int
  source_chain_id : Nat
  destination_chain_id : Nat
  destination_token : Bytes32
  receiver : Bytes32
  destination_amount : Int
  deadline : Nat
  created_at : Nat
  relayer : Bytes32
deriving DecidableEq

/-- Destination-side fill record, as constructed in `fill_and_notify`. -/
structure FillRecord where
  relayer : Address
  repayment_address : Bytes32
deriving DecidableEq

/-- Outbound message stored for debugging (`store_outbound_message`). -/
structure OutboundMessage where
  destination_chain : String
  destination_address : String
  payload : List Nat
deriving DecidableEq

/-- An observable token movement performed by a call. -/
structure Transfer where
  token : Address
  src : Address
  dst : Address
  amount : Int
deriving DecidableEq

/-! ## Association-list storage -/

/-- Lookup in an association list (first binding wins). -/
def alookup {α β : Type} [DecidableEq α] : List (α × β) → α → Option β
  | [], _ => none
  | (k, v) :: rest, k' => if k' = k then some v else alookup rest k'

/-- Insert / overwrite a binding. -/
def aset {α β : Type} [DecidableEq α] (l : List (α × β)) (k : α) (v : β) :
    List (α × β) :=
  (k, v) :: l

theorem alookup_aset_self {α β : Type} [DecidableEq α]
    (l : List (α × β)) (k : α) (v : β) : alookup (aset l k v) k = some v := by
  simp [aset, alookup]

theorem alookup_aset_ne {α β : Type} [DecidableEq α]
    (l : List (α × β)) (k k' : α) (v : β) (h : k' ≠ k) :
    alookup (aset l k v) k' = alookup l k' := by
  simp [aset, alookup, h]

/-! ## Contract storage (`storage.rs`) -/

/-- The contract's storage, one field per storage key family. -/
structure ContractState where
  owner : Option Address
  fee_recipient : Option Address
  protocol_fee : Nat
  rozo_relayer : Option Address
  rozo_threshold : Nat
  chain_id : Nat
  intents : List (Bytes32 × Intent)
  relayers : List (Address × RelayerType)
  messenger_adapters : List (Nat × Address)
  fill_records : List (Bytes32 × FillRecord)
  trusted_contracts : List (String × String)
  chain_names : List (Nat × String)
  accumulated_fees : List (Address × Int)
  outbound : List OutboundMessage
deriving DecidableEq

def get_relayer_type (s : ContractState) (a : Address) : RelayerType :=
  (alookup s.relayers a).getD RelayerType.None

def get_intent (s : ContractState) (id : Bytes32) : Option Intent :=
  alookup s.intents id

def set_intent (s : ContractState) (id : Bytes32) (intent : Intent) :
    ContractState :=
  { s with intents := aset s.intents id intent }

def get_fill_record (s : ContractState) (h : Bytes32) : Option FillRecord :=
  alookup s.fill_records h

def set_fill_record (s : ContractState) (h : Bytes32) (r : FillRecord) :
    ContractState :=
  { s with fill_records := aset s.fill_records h r }

def get_accumulated_fees (s : ContractState) (token : Address) : Int :=
  (alookup s.accumulated_fees token).getD 0

def set_accumulated_fees (s : ContractState) (token : Address) (amount : Int) :
    ContractState :=
  { s with accumulated_fees := aset s.accumulated_fees token amount }

def store_outbound_message (s : ContractState) (destination_chain : String)
    (destination_address : String) (payload : List Nat) : ContractState :=
  { s with outbound :=
      s.outbound ++ [⟨destination_chain, destination_address, payload⟩] }

/-! ## Fill-hash computation (`compute_fill_hash`) -/

/-- Host `env.crypto().sha256_hash_new()`: a fresh hasher accumulates no bytes. -/
def sha256_hash_new : List Nat := []

/-- Host `hash_extend`: feed more bytes to the hasher. -/
def hash_extend (st : List Nat) (b : List Nat) : List Nat := st ++ b

/-- Host `hash_finalize`: apply the digest function to the accumulated bytes. -/
def hash_finalize (sha256 : List Nat → Bytes32) (st : List Nat) : Bytes32 :=
  sha256 st

/-- Source `compute_fill_hash`: digest of the thirteen intent fields, fed to the
hasher in the source's order and encodings.  The SHA-256 compression
itself is the host's primitive, passed in as `sha256`. -/
def compute_fill_hash (sha256 : List Nat → Bytes32) (d : IntentData) :
    Bytes32 :=
  let h0 := sha256_hash_new
  let h1 := hash_extend h0 d.intent_id.val
  let h2 := hash_extend h1 d.sender.val
  let h3 := hash_extend h2 d.refund_address.val
  let h4 := hash_extend h3 d.source_token.val
  let h5 := hash_extend h4 (i128be d.source_amount)
  let h6 := hash_extend h5 (u64be d.source_chain_id)
  let h7 := hash_extend h6 (u64be d.destination_chain_id)
  let h8 := hash_extend h7 d.destination_token.val
  let h9 := hash_extend h8 d.receiver.val
  let h10 := hash_extend h9 (i128be d.destination_amount)
  let h11 := hash_extend h10 (u64be d.deadline)
  let h12 := hash_extend h11 (u64be d.created_at)
  let h13 := hash_extend h12 d.relayer.val
  hash_finalize sha256 h13

/-- A concrete stand-in digest used to instantiate witnesses: the first 32
bytes of the zero-padded input.  (Theorems are generic in the digest.) -/
def dummyHash (l : List Nat) : Bytes32 :=
  ⟨(l ++ List.replicate 32 0).take 32, by
    simp [List.length_take]⟩

/-! ## Cross-chain payload codec -/

/-- Source `encode_notify_payload`: five 32-byte fields, the i128 amount
right-aligned big-endian in the last field. -/
def encode_notify_payload (intent_id fill_hash repayment_address
    relayer : Bytes32) (amount : Int) : List Nat :=
  intent_id.val ++ fill_hash.val ++ repayment_address.val ++ relayer.val ++
    (List.replicate 16 0 ++ i128be amount)

/-- The source's byte-copy loop `arr[i] = payload.get(off + i).unwrap_or(0)`
for a 32-byte slice. -/
def slice32 (l : List Nat) (off : Nat) : List Nat :=
  (List.range 32).map (fun i => l.getD (off + i) 0)

theorem slice32_length (l : List Nat) (off : Nat) :
    (slice32 l off).length = 32 := by
  simp [slice32]

/-- Source `decode_notify_payload`: length must be exactly 160; returns
`(fill_hash, intent_id, repayment_address, relayer, amount)`. -/
def decode_notify_payload (payload : List Nat) :
    Except Error (Bytes32 × Bytes32 × Bytes32 × Bytes32 × Int) :=
  if payload.length ≠ 160 then .error .InvalidPayload
  else
    let intent_id : Bytes32 := ⟨slice32 payload 0, slice32_length _ _⟩
    let fill_hash : Bytes32 := ⟨slice32 payload 32, slice32_length _ _⟩
    let repayment_address : Bytes32 := ⟨slice32 payload 64, slice32_length _ _⟩
    let relayer : Bytes32 := ⟨slice32 payload 96, slice32_length _ _⟩
    let amount_arr := slice32 payload 128
    let amount := i128FromBeBytes (amount_arr.drop 16)
    .ok (fill_hash, intent_id, repayment_address, relayer, amount)

/-! ## Contract operations (`lib.rs`) -/

/-- The `IntentData` that `complete_fill` reconstructs from the stored
intent, using the configured chain id as `source_chain_id`. -/
def expectedIntentData (s : ContractState) (intent : Intent) : IntentData :=
  { intent_id := intent.intent_id
    sender := address_to_bytes32 intent.sender
    refund_address := address_to_bytes32 intent.refund_address
    source_token := address_to_bytes32 intent.source_token
    source_amount := intent.source_amount
    source_chain_id := s.chain_id
    destination_chain_id := intent.destination_chain_id
    destination_token := intent.destination_token
    receiver := intent.receiver
    destination_amount := intent.destination_amount
    deadline := intent.deadline
    created_at := intent.created_at
    relayer := intent.relayer }

/-- Source `is_rozo_fallback`: the caller is the registered fallback relayer, the
threshold is non-zero, and the threshold has elapsed since creation. -/
def is_rozo_fallback (s : ContractState) (now : Nat) (caller : Address)
    (created_at : Nat) : Bool :=
  match s.rozo_relayer with
  | none => false
  | some r =>
      if caller ≠ r then false
      else if s.rozo_threshold = 0 then false
      else decide (created_at + s.rozo_threshold ≤ now)

/-- Source `refund`: user-triggered refund of an expired pending intent. -/
def refund (self : Address) (now : Nat) (s : ContractState) (caller : Address)
    (intent_id : Bytes32) : Except Error (ContractState × List Transfer) :=
  match get_intent s intent_id with
  | none => .error .IntentNotFound
  | some intent =>
      if intent.status ≠ IntentStatus.Pending then .error .InvalidStatus
      else if now < intent.deadline then .error .IntentNotExpired
      else if caller ≠ intent.sender ∧ caller ≠ intent.refund_address then
        .error .NotAuthorized
      else
        .ok (set_intent s intent_id { intent with status := .Refunded },
          [⟨intent.source_token, self, intent.refund_address,
            intent.source_amount⟩])

/-- Source `fill_and_notify`: destination-side fill with double-fill guard,
relayer authorization and cross-chain notification dispatch. -/
def fill_and_notify (sha256 : List Nat → Bytes32) (now : Nat)
    (s : ContractState) (relayer : Address) (intent_data : IntentData)
    (repayment_address : Bytes32) (messenger_id : Nat) :
    Except Error (ContractState × List Transfer) :=
  if get_relayer_type s relayer = RelayerType.None then .error .NotRelayer
  else if intent_data.destination_chain_id ≠ s.chain_id then
    .error .WrongChain
  else if intent_data.deadline ≤ now then .error .IntentExpired
  else
    let relayer_bytes32 := address_to_bytes32 relayer
    if intent_data.relayer ≠ zeroBytes32 ∧
        intent_data.relayer ≠ relayer_bytes32 ∧
        is_rozo_fallback s now relayer intent_data.created_at = false then
      .error .NotAssignedRelayer
    else
      let fill_hash := compute_fill_hash sha256 intent_data
      if (get_fill_record s fill_hash).isSome then .error .AlreadyFilled
      else
        let s1 := set_fill_record s fill_hash
          ⟨relayer, repayment_address⟩
        let receiver_address := bytes32_to_address intent_data.receiver
        let token_address := bytes32_to_address intent_data.destination_token
        let transfer : Transfer :=
          ⟨token_address, relayer, receiver_address,
            intent_data.destination_amount⟩
        match alookup s1.messenger_adapters messenger_id with
        | none => .error .InvalidMessenger
        | some _adapter =>
            let payload := encode_notify_payload intent_data.intent_id
              fill_hash repayment_address relayer_bytes32
              intent_data.destination_amount
            match alookup s1.chain_names intent_data.source_chain_id with
            | none => .error .ChainNotFound
            | some source_chain =>
                match alookup s1.trusted_contracts source_chain with
                | none => .error .UntrustedSource
                | some destination_address =>
                    let s2 := store_outbound_message s1 source_chain
                      destination_address payload
                    .ok (s2, [transfer])

/-- Source `complete_fill`: source-side finalization invoked from `notify`. -/
def complete_fill (sha256 : List Nat → Bytes32) (self : Address)
    (s : ContractState) (intent_id fill_hash repayment_address : Bytes32)
    (relayer : Bytes32) (amount_paid : Int) :
    Except Error (ContractState × List Transfer) :=
  match get_intent s intent_id with
  | none => .error .IntentNotFound
  | some intent =>
      if intent.status ≠ IntentStatus.Pending then .error .InvalidStatus
      else
        let expected_fill_hash :=
          compute_fill_hash sha256 (expectedIntentData s intent)
        if fill_hash ≠ expected_fill_hash then
          .ok (set_intent s intent_id { intent with status := .Failed }, [])
        else if amount_paid < intent.destination_amount then
          .ok (set_intent s intent_id { intent with status := .Failed }, [])
        else
          let fee_bps := s.protocol_fee
          let fee_amount := Int.tdiv (intent.source_amount * fee_bps) 10000
          let relayer_payout := intent.source_amount - fee_amount
          let current_fees := get_accumulated_fees s intent.source_token
          let s1 := set_accumulated_fees s intent.source_token
            (current_fees + fee_amount)
          let s2 := set_intent s1 intent_id { intent with status := .Filled }
          let payout_address := bytes32_to_address repayment_address
          .ok (s2, [⟨intent.source_token, self, payout_address,
            relayer_payout⟩])

/-- Source `notify`: messenger callback that decodes the payload and completes
the fill. -/
def notify (sha256 : List Nat → Bytes32) (self : Address) (s : ContractState)
    (caller : Address) (messenger_id : Nat) (message_data : List Nat) :
    Except Error (ContractState × List Transfer) :=
  match alookup s.messenger_adapters messenger_id with
  | none => .error .InvalidMessenger
  | some adapter =>
      if caller ≠ adapter then .error .NotMessenger
      else
        match decode_notify_payload message_data with
        | .error e => .error e
        | .ok (fill_hash, intent_id, repayment_address, relayer,
            amount_paid) =>
            complete_fill sha256 self s intent_id fill_hash
              repayment_address relayer amount_paid

/-- Source `set_protocol_fee`: admin entry point, caps the fee at 30 bps. -/
def set_protocol_fee (s : ContractState) (fee_bps : Nat) :
    Except Error ContractState :=
  match s.owner with
  | none => .error .NotInitialized
  | some _ =>
      if fee_bps > 30 then .error .InvalidFee
      else .ok { s with protocol_fee := fee_bps }

/-- Source `set_intent_status`: admin override of an intent's status. -/
def set_intent_status (s : ContractState) (intent_id : Bytes32)
    (status : IntentStatus) : Except Error ContractState :=
  match s.owner with
  | none => .error .NotInitialized
  | some _ =>
      match get_intent s intent_id with
      | none => .error .IntentNotFound
      | some intent =>
          .ok (set_intent s intent_id { intent with status := status })

/-- Source `set_intent_relayer`: admin override of an intent's assigned relayer. -/
def set_intent_relayer (s : ContractState) (intent_id : Bytes32)
    (relayer : Bytes32) : Except Error ContractState :=
  match s.owner with
  | none => .error .NotInitialized
  | some _ =>
      match get_intent s intent_id with
      | none => .error .IntentNotFound
      | some intent =>
          .ok (set_intent s intent_id { intent with relayer := relayer })

/-- Source `admin_refund`: privileged force-refund, rejected only on `Filled` or
`Refunded` intents. -/
def admin_refund (self : Address) (s : ContractState) (intent_id : Bytes32) :
    Except Error (ContractState × List Transfer) :=
  match s.owner with
  | none => .error .NotInitialized
  | some _ =>
      match get_intent s intent_id with
      | none => .error .IntentNotFound
      | some intent =>
          if intent.status = IntentStatus.Filled ∨
              intent.status = IntentStatus.Refunded then
            .error .InvalidStatus
          else
            .ok (set_intent s intent_id { intent with status := .Refunded },
              [⟨intent.source_token, self, intent.refund_address,
                intent.source_amount⟩])

deriving instance DecidableEq for Except

/-! ## Core-field preservation (claim C8's invariant) -/

/-- The eleven creation-time fields of an intent agree; only `status` and
`relayer` are left unconstrained. -/
def sameCore (i i' : Intent) : Prop :=
  i'.intent_id = i.intent_id ∧ i'.sender = i.sender ∧
  i'.refund_address = i.refund_address ∧ i'.source_token = i.source_token ∧
  i'.source_amount = i.source_amount ∧
  i'.destination_chain_id = i.destination_chain_id ∧
  i'.destination_token = i.destination_token ∧ i'.receiver = i.receiver ∧
  i'.destination_amount = i.destination_amount ∧ i'.deadline = i.deadline ∧
  i'.created_at = i.created_at

/-- Every intent stored in `s` is still stored in `s'` with all eleven
creation-time fields intact. -/
def corePreserved (s s' : ContractState) : Prop :=
  ∀ id i, get_intent s id = some i →
    (get_intent s' id).isSome = true ∧
    ∀ i', get_intent s' id = some i' → sameCore i i'

/-! ## Sample values (used to instantiate witnesses) -/

/-- A 32-byte value whose bytes are all `b % 256`. -/
def sampleB32 (b : Nat) : Bytes32 := ⟨List.replicate 32 (b % 256), by simp⟩

/-- A sample contract address with key `sampleB32 b`. -/
def sampleAddr (b : Nat) : Address := ⟨false, sampleB32 b⟩

/-- A sample pending intent used by concrete witnesses. -/
def sampleIntent : Intent :=
  { intent_id := sampleB32 7
    sender := sampleAddr 1
    refund_address := sampleAddr 2
    source_token := sampleAddr 3
    source_amount := 1000
    destination_chain_id := 2
    destination_token := sampleB32 4
    receiver := sampleB32 5
    destination_amount := 900
    deadline := 100
    created_at := 10
    status := .Pending
    relayer := sampleB32 6 }

/-- A sample configured contract state holding `sampleIntent`. -/
def sampleState : ContractState :=
  { owner := some (sampleAddr 9)
    fee_recipient := some (sampleAddr 8)
    protocol_fee := 30
    rozo_relayer := some (sampleAddr 10)
    rozo_threshold := 50
    chain_id := 2
    intents := [(sampleB32 7, sampleIntent)]
    relayers := [(sampleAddr 11, .External), (sampleAddr 10, .Rozo)]
    messenger_adapters := [(1, sampleAddr 12)]
    fill_records := []
    trusted_contracts := [("base", "0xabc")]
    chain_names := [(8453, "base")]
    accumulated_fees := []
    outbound := [] }

/-- The `IntentData` snapshot of `sampleIntent` as a relayer would submit
it on the destination chain (source chain id 1). -/
def sampleIntentData : IntentData :=
  { intent_id := sampleB32 7
    sender := sampleB32 1
    refund_address := sampleB32 2
    source_token := sampleB32 3
    source_amount := 1000
    source_chain_id := 8453
    destination_chain_id := 2
    destination_token := sampleB32 4
    receiver := sampleB32 5
    destination_amount := 900
    deadline := 100
    created_at := 10
    relayer := sampleB32 6 }

/-! ## Slice lemmas for the payload codec -/

theorem range_map_getD (l : List Nat) (n : Nat) (h : l.length = n) :
    (List.range n).map (fun i => l.getD i 0) = l := by
  apply List.ext_getElem
  · simp [h]
  · intro i h₁ h₂
    simp only [List.getElem_map, List.getElem_range]
    rw [List.getD_eq_getElem]

theorem slice32_append_zero (a rest : List Nat) (h : a.length = 32) :
    slice32 (a ++ rest) 0 = a := by
  unfold slice32
  have step : ∀ i ∈ List.range 32,
      (a ++ rest).getD (0 + i) 0 = a.getD i 0 := by
    intro i hi
    have hi' : i < a.length := by
      rw [h]; exact List.mem_range.mp hi
    rw [Nat.zero_add, List.getD_append a rest 0 i hi']
  rw [List.map_congr_left step]
  exact range_map_getD a 32 h

theorem slice32_append_skip (a rest : List Nat) (off : Nat)
    (h : a.length ≤ off) :
    slice32 (a ++ rest) off = slice32 rest (off - a.length) := by
  unfold slice32
  apply List.map_congr_left
  intro i _
  rw [List.getD_append_right a rest 0 (off + i) (by omega)]
  congr 1
  omega

theorem slice32_self (l : List Nat) (h : l.length = 32) : slice32 l 0 = l := by
  have := slice32_append_zero l [] h
  simpa using this

theorem i128FromBeBytes_i128be (x : Int) (h1 : -(2 ^ 127) ≤ x)
    (h2 : x < 2 ^ 127) : i128FromBeBytes (i128be x) = x := by
  have h127 : (2 : Int) ^ 127 = 170141183460469231731687303715884105728 := by
    norm_num
  have h128 : (2 : Int) ^ 128 = 340282366920938463463374607431768211456 := by
    norm_num
  have n127 : (2 : Nat) ^ 127 = 170141183460469231731687303715884105728 := by
    norm_num
  have hm : (256 : Nat) ^ 16 = 340282366920938463463374607431768211456 := by
    norm_num
  rw [h127] at h1 h2
  unfold i128FromBeBytes i128be
  rw [beBytesToNat_natToBeBytes, hm, n127, h128]
  dsimp only
  split_ifs with hlt
  · omega
  · omega

theorem slice32_cons_block (a rest : List Nat) (h : a.length = 32)
    (off : Nat) (hoff : 32 ≤ off) :
    slice32 (a ++ rest) off = slice32 rest (off - 32) := by
  have hstep := slice32_append_skip a rest off (by rw [h]; exact hoff)
  rw [h] at hstep
  exact hstep

/-! ## Claims -/

/--
C2: `compute_fill_hash` is the digest of the concatenation, in exactly
the source order, of the thirteen `IntentData` fields: the 32-byte fields
contribute their raw bytes, the `i128` fields their 16 big-endian bytes
and the `u64` fields their 8 big-endian bytes; the digest output is 32
bytes.  The SHA-256 compression itself is the host primitive, so the
statement is generic in the digest function `sha256`.
-/
theorem c2_compute_fill_hash_encoding (sha256 : List Nat → Bytes32)
    (d : IntentData) :
    compute_fill_hash sha256 d =
      sha256 (d.intent_id.val ++ d.sender.val ++ d.refund_address.val ++
        d.source_token.val ++ i128be d.source_amount ++
        u64be d.source_chain_id ++ u64be d.destination_chain_id ++
        d.destination_token.val ++ d.receiver.val ++
        i128be d.destination_amount ++ u64be d.deadline ++
        u64be d.created_at ++ d.relayer.val) ∧
    (∀ x : Int, (i128be x).length = 16) ∧
    (∀ n : Nat, (u64be n).length = 8) ∧
    (compute_fill_hash sha256 d).val.length = 32 := by
  refine ⟨?_, ?_, ?_, (compute_fill_hash sha256 d).property⟩
  · simp [compute_fill_hash, hash_extend, hash_finalize, sha256_hash_new,
      List.append_assoc]
  · intro x
    simp [i128be, natToBeBytes_length]
  · intro n
    simp [u64be, natToBeBytes_length]

/--
C5: `encode_notify_payload` always produces exactly 160 bytes — five
32-byte fields in order, the amount right-aligned big-endian and
zero-padded — `decode_notify_payload` inverts it on every in-range field
tuple, and `decode_notify_payload` rejects every payload whose length is
not 160 with `InvalidPayload`.
-/
theorem c5_notify_payload_codec
    (intent_id fill_hash repayment_address relayer : Bytes32) (amount : Int)
    (h1 : -(2 ^ 127) ≤ amount) (h2 : amount < 2 ^ 127) :
    (encode_notify_payload intent_id fill_hash repayment_address relayer
        amount).length = 160 ∧
    encode_notify_payload intent_id fill_hash repayment_address relayer
        amount =
      intent_id.val ++ (fill_hash.val ++ (repayment_address.val ++
        (relayer.val ++ (List.replicate 16 0 ++ i128be amount)))) ∧
    decode_notify_payload (encode_notify_payload intent_id fill_hash
        repayment_address relayer amount) =
      .ok (fill_hash, intent_id, repayment_address, relayer, amount) ∧
    (∀ l : List Nat, l.length ≠ 160 →
      decode_notify_payload l = .error .InvalidPayload) := by
  have hlayout : encode_notify_payload intent_id fill_hash repayment_address
      relayer amount =
      intent_id.val ++ (fill_hash.val ++ (repayment_address.val ++
        (relayer.val ++ (List.replicate 16 0 ++ i128be amount)))) := by
    simp [encode_notify_payload, List.append_assoc]
  have hbe : (i128be amount).length = 16 := by
    simp [i128be, natToBeBytes_length]
  have hlen : (encode_notify_payload intent_id fill_hash repayment_address
      relayer amount).length = 160 := by
    rw [hlayout]
    simp [intent_id.2, fill_hash.2, repayment_address.2, relayer.2, hbe]
  refine ⟨hlen, hlayout, ?_, ?_⟩
  · have hs0 : slice32 (encode_notify_payload intent_id fill_hash
        repayment_address relayer amount) 0 = intent_id.val := by
      rw [hlayout]
      exact slice32_append_zero _ _ intent_id.2
    have hs32 : slice32 (encode_notify_payload intent_id fill_hash
        repayment_address relayer amount) 32 = fill_hash.val := by
      rw [hlayout, slice32_cons_block _ _ intent_id.2 32 le_rfl]
      simp only [Nat.sub_self]
      exact slice32_append_zero _ _ fill_hash.2
    have hs64 : slice32 (encode_notify_payload intent_id fill_hash
        repayment_address relayer amount) 64 = repayment_address.val := by
      rw [hlayout, slice32_cons_block _ _ intent_id.2 64 (by omega),
        slice32_cons_block _ _ fill_hash.2 (64 - 32) (by omega)]
      simp only [show 64 - 32 - 32 = 0 from rfl]
      exact slice32_append_zero _ _ repayment_address.2
    have hs96 : slice32 (encode_notify_payload intent_id fill_hash
        repayment_address relayer amount) 96 = relayer.val := by
      rw [hlayout, slice32_cons_block _ _ intent_id.2 96 (by omega),
        slice32_cons_block _ _ fill_hash.2 (96 - 32) (by omega),
        slice32_cons_block _ _ repayment_address.2 (96 - 32 - 32) (by omega)]
      simp only [show 96 - 32 - 32 - 32 = 0 from rfl]
      exact slice32_append_zero _ _ relayer.2
    have htail : (List.replicate 16 (0 : Nat) ++ i128be amount).length
        = 32 := by
      simp [hbe]
    have hs128 : slice32 (encode_notify_payload intent_id fill_hash
        repayment_address relayer amount) 128 =
        List.replicate 16 0 ++ i128be amount := by
      rw [hlayout, slice32_cons_block _ _ intent_id.2 128 (by omega),
        slice32_cons_block _ _ fill_hash.2 (128 - 32) (by omega),
        slice32_cons_block _ _ repayment_address.2 (128 - 32 - 32) (by omega),
        slice32_cons_block _ _ relayer.2 (128 - 32 - 32 - 32) (by omega)]
      simp only [show 128 - 32 - 32 - 32 - 32 = 0 from rfl]
      exact slice32_self _ htail
    have hdrop : (slice32 (encode_notify_payload intent_id fill_hash
        repayment_address relayer amount) 128).drop 16 = i128be amount := by
      rw [hs128]
      have h16 : List.drop 16 (List.replicate 16 (0 : Nat) ++ i128be amount)
          = List.drop (List.replicate 16 (0 : Nat)).length
            (List.replicate 16 (0 : Nat) ++ i128be amount) := by
        norm_num
      rw [h16, List.drop_left]
    unfold decode_notify_payload
    rw [if_neg (by rw [hlen]; simp)]
    dsimp only
    simp only [Except.ok.injEq, Prod.mk.injEq]
    refine ⟨Subtype.ext hs32, Subtype.ext hs0, Subtype.ext hs64,
      Subtype.ext hs96, ?_⟩
    rw [hdrop]
    exact i128FromBeBytes_i128be amount h1 h2
  · intro l hl
    unfold decode_notify_payload
    rw [if_pos hl]

/-- Witness for C5: a concrete round trip through the 160-byte codec with
a negative amount. -/
theorem c5_notify_payload_codec_witness :
    decode_notify_payload (encode_notify_payload (sampleB32 1) (sampleB32 2)
        (sampleB32 3) (sampleB32 4) (-5)) =
      .ok (sampleB32 2, sampleB32 1, sampleB32 3, sampleB32 4, -5) :=
  (c5_notify_payload_codec (sampleB32 1) (sampleB32 2) (sampleB32 3)
    (sampleB32 4) (-5) (by norm_num) (by norm_num)).2.2.1

theorem get_intent_set_intent (s : ContractState) (id₀ : Bytes32)
    (i₀ : Intent) (id : Bytes32) :
    get_intent (set_intent s id₀ i₀) id =
      if id = id₀ then some i₀ else get_intent s id := by
  simp only [get_intent, set_intent, aset, alookup]

theorem sameCore_set_status (i : Intent) (st : IntentStatus) :
    sameCore i { i with status := st } := by
  simp [sameCore]

theorem sameCore_set_relayer (i : Intent) (r : Bytes32) :
    sameCore i { i with relayer := r } := by
  simp [sameCore]

theorem sameCore_refl (i : Intent) : sameCore i i := by
  simp [sameCore]

theorem corePreserved_set (s s_base : ContractState)
    (hbase : s_base.intents = s.intents) (id₀ : Bytes32) (i₀ new : Intent)
    (h₀ : get_intent s id₀ = some i₀) (hcore : sameCore i₀ new) :
    corePreserved s (set_intent s_base id₀ new) := by
  intro id i hi
  by_cases hid : id = id₀
  · subst hid
    have hii : i = i₀ := Option.some.inj (hi.symm.trans h₀)
    subst hii
    constructor
    · rw [get_intent_set_intent, if_pos rfl]
      rfl
    · intro i' hi'
      rw [get_intent_set_intent, if_pos rfl] at hi'
      rw [← Option.some.inj hi']
      exact hcore
  · have hsb : get_intent (set_intent s_base id₀ new) id = some i := by
      rw [get_intent_set_intent, if_neg hid]
      show alookup s_base.intents id = some i
      rw [hbase]
      exact hi
    constructor
    · rw [hsb]; rfl
    · intro i' hi'
      rw [hsb] at hi'
      rw [← Option.some.inj hi']
      exact sameCore_refl i

theorem tdiv_eq_fdiv_of_nonneg (a b : Int) (ha : 0 ≤ a) (hb : 0 ≤ b) :
    Int.tdiv a b = Int.fdiv a b := by
  lift a to Nat using ha
  lift b to Nat using hb
  rw [← Int.ofNat_tdiv, Int.fdiv_eq_ediv _ (by positivity)]
  simp [Int.ofNat_ediv]

/--
C1: when `complete_fill` (the body of `notify`) reaches a `Pending`
intent and either the claimed fill hash differs from the hash recomputed
from the stored intent (with the configured chain id as
`source_chain_id`) or the reported `amount_paid` is below the intent's
`destination_amount`, the call returns `Ok`, the status becomes `Failed`,
and no token transfer, fee accrual or relayer payout happens (the
transfer list is empty and `accumulated_fees` is untouched).
-/
theorem c1_verification_failure_is_recorded
    (sha256 : List Nat → Bytes32) (self : Address) (s : ContractState)
    (intent_id fill_hash repayment_address relayer : Bytes32)
    (amount_paid : Int) (intent : Intent)
    (hint : get_intent s intent_id = some intent)
    (hpend : intent.status = .Pending)
    (hbad : fill_hash ≠ compute_fill_hash sha256 (expectedIntentData s intent)
      ∨ amount_paid < intent.destination_amount) :
    complete_fill sha256 self s intent_id fill_hash repayment_address relayer
        amount_paid =
      .ok (set_intent s intent_id { intent with status := .Failed }, []) ∧
    get_intent (set_intent s intent_id { intent with status := .Failed })
        intent_id = some { intent with status := .Failed } ∧
    (set_intent s intent_id
        { intent with status := .Failed }).accumulated_fees =
      s.accumulated_fees ∧
    (set_intent s intent_id { intent with status := .Failed }).fill_records =
      s.fill_records := by
  refine ⟨?_, ?_, rfl, rfl⟩
  · unfold complete_fill
    rw [hint]
    dsimp only
    rw [if_neg (by simp [hpend])]
    rcases hbad with hbad | hbad
    · rw [if_pos hbad]
    · by_cases hfh :
        fill_hash = compute_fill_hash sha256 (expectedIntentData s intent)
      · rw [if_neg (by simp [hfh]), if_pos hbad]
      · rw [if_pos hfh]
  · rw [get_intent_set_intent, if_pos rfl]

/-- Witness for C1 at a concrete state: underpayment (0 < 900) on the
sample pending intent records `Failed` with no transfers. -/
theorem c1_verification_failure_is_recorded_witness :
    complete_fill dummyHash (sampleAddr 0) sampleState (sampleB32 7)
        (sampleB32 0) (sampleB32 3) (sampleB32 6) 0 =
      .ok (set_intent sampleState (sampleB32 7)
        { sampleIntent with status := .Failed }, []) :=
  (c1_verification_failure_is_recorded dummyHash (sampleAddr 0) sampleState
    (sampleB32 7) (sampleB32 0) (sampleB32 3) (sampleB32 6) 0 sampleIntent
    (by decide) (by decide) (Or.inr (by decide))).1

/--
C7: `refund` on an existing intent errors with `InvalidStatus` unless the
status is `Pending`, with `IntentNotExpired` before the deadline, and with
`NotAuthorized` unless the caller is the sender or the refund address;
when all three gates pass it marks the intent `Refunded` (all other
fields unchanged) and transfers the full escrowed `source_amount` to
`refund_address`.
-/
theorem c7_refund_characterization
    (self : Address) (now : Nat) (s : ContractState) (caller : Address)
    (intent_id : Bytes32) (intent : Intent)
    (hint : get_intent s intent_id = some intent) :
    (intent.status ≠ .Pending →
      refund self now s caller intent_id = .error .InvalidStatus) ∧
    (intent.status = .Pending → now < intent.deadline →
      refund self now s caller intent_id = .error .IntentNotExpired) ∧
    (intent.status = .Pending → intent.deadline ≤ now →
      caller ≠ intent.sender → caller ≠ intent.refund_address →
      refund self now s caller intent_id = .error .NotAuthorized) ∧
    (intent.status = .Pending → intent.deadline ≤ now →
      (caller = intent.sender ∨ caller = intent.refund_address) →
      refund self now s caller intent_id =
        .ok (set_intent s intent_id { intent with status := .Refunded },
          [⟨intent.source_token, self, intent.refund_address,
            intent.source_amount⟩]) ∧
      get_intent (set_intent s intent_id
          { intent with status := .Refunded }) intent_id =
        some { intent with status := .Refunded }) := by
  refine ⟨?_, ?_, ?_, ?_⟩
  · intro hst
    unfold refund
    rw [hint]
    dsimp only
    rw [if_pos hst]
  · intro hst hdl
    unfold refund
    rw [hint]
    dsimp only
    rw [if_neg (by simp [hst]), if_pos hdl]
  · intro hst hdl hc1 hc2
    unfold refund
    rw [hint]
    dsimp only
    rw [if_neg (by simp [hst]), if_neg (by omega), if_pos ⟨hc1, hc2⟩]
  · intro hst hdl hc
    constructor
    · unfold refund
      rw [hint]
      dsimp only
      rw [if_neg (by simp [hst]), if_neg (by omega), if_neg (by tauto)]
    · rw [get_intent_set_intent, if_pos rfl]

/-- Witness for C7 at a concrete state: the sender refunds the sample
intent after its deadline. -/
theorem c7_refund_characterization_witness :
    refund (sampleAddr 0) 150 sampleState (sampleAddr 1) (sampleB32 7) =
      .ok (set_intent sampleState (sampleB32 7)
          { sampleIntent with status := .Refunded },
        [⟨sampleIntent.source_token, sampleAddr 0,
          sampleIntent.refund_address, sampleIntent.source_amount⟩]) :=
  ((c7_refund_characterization (sampleAddr 0) 150 sampleState (sampleAddr 1)
    (sampleB32 7) sampleIntent (by decide)).2.2.2 (by decide) (by decide)
    (Or.inl (by decide))).1

/--
C6: on a successful fill the fee is the truncating (= flooring, as the
operands are non-negative) division `source_amount * fee_bps / 10000`,
the relayer payout is `source_amount - fee`, the two add back to
`source_amount` exactly, and `set_protocol_fee` rejects every
`fee_bps > 30` with `InvalidFee` (the cap is enforced at configuration
time; `complete_fill` performs no cap check).
-/
theorem c6_fee_and_payout
    (sha256 : List Nat → Bytes32) (self : Address) (s : ContractState)
    (intent_id repayment_address relayer : Bytes32) (amount_paid : Int)
    (intent : Intent)
    (hint : get_intent s intent_id = some intent)
    (hpend : intent.status = .Pending)
    (hamt : intent.destination_amount ≤ amount_paid)
    (hsrc : 0 ≤ intent.source_amount)
    (hbps : s.protocol_fee ≤ 30) :
    Int.tdiv (intent.source_amount * s.protocol_fee) 10000 =
      Int.fdiv (intent.source_amount * s.protocol_fee) 10000 ∧
    Int.tdiv (intent.source_amount * s.protocol_fee) 10000 +
      (intent.source_amount -
        Int.tdiv (intent.source_amount * s.protocol_fee) 10000) =
      intent.source_amount ∧
    complete_fill sha256 self s intent_id
        (compute_fill_hash sha256 (expectedIntentData s intent))
        repayment_address relayer amount_paid =
      .ok (set_intent (set_accumulated_fees s intent.source_token
            (get_accumulated_fees s intent.source_token +
              Int.tdiv (intent.source_amount * s.protocol_fee) 10000))
          intent_id { intent with status := .Filled },
        [⟨intent.source_token, self, bytes32_to_address repayment_address,
          intent.source_amount -
            Int.tdiv (intent.source_amount * s.protocol_fee) 10000⟩]) ∧
    (∀ fee_bps : Nat, s.owner ≠ none → 30 < fee_bps →
      set_protocol_fee s fee_bps = .error .InvalidFee) ∧
    (∀ fee_bps : Nat, s.owner ≠ none → fee_bps ≤ 30 →
      set_protocol_fee s fee_bps = .ok { s with protocol_fee := fee_bps }) := by
  refine ⟨?_, by ring, ?_, ?_, ?_⟩
  · exact tdiv_eq_fdiv_of_nonneg _ _
      (mul_nonneg hsrc (Int.natCast_nonneg _)) (by norm_num)
  · unfold complete_fill
    rw [hint]
    dsimp only
    rw [if_neg (by simp [hpend]), if_neg (by simp), if_neg (by omega)]
  · intro fee_bps hown hgt
    unfold set_protocol_fee
    cases howner : s.owner with
    | none => exact absurd howner hown
    | some o =>
        dsimp only
        rw [if_pos hgt]
  · intro fee_bps hown hle
    unfold set_protocol_fee
    cases howner : s.owner with
    | none => exact absurd howner hown
    | some o =>
        dsimp only
        rw [if_neg (by omega)]

/-- Witness for C6 at a concrete state: filling the sample intent
(source amount 1000, fee 30 bps) accrues fee 3 and pays out 997. -/
theorem c6_fee_and_payout_witness :
    complete_fill dummyHash (sampleAddr 0) sampleState (sampleB32 7)
        (compute_fill_hash dummyHash
          (expectedIntentData sampleState sampleIntent))
        (sampleB32 3) (sampleB32 6) 900 =
      .ok (set_intent (set_accumulated_fees sampleState
            sampleIntent.source_token
            (get_accumulated_fees sampleState sampleIntent.source_token +
              Int.tdiv (sampleIntent.source_amount *
                sampleState.protocol_fee) 10000))
          (sampleB32 7) { sampleIntent with status := .Filled },
        [⟨sampleIntent.source_token, sampleAddr 0,
          bytes32_to_address (sampleB32 3),
          sampleIntent.source_amount -
            Int.tdiv (sampleIntent.source_amount *
              sampleState.protocol_fee) 10000⟩]) :=
  (c6_fee_and_payout dummyHash (sampleAddr 0) sampleState (sampleB32 7)
    (sampleB32 3) (sampleB32 6) 900 sampleIntent (by decide) (by decide)
    (by decide) (by decide) (by decide)).2.2.1

/--
C9 counterexample: the claim says `admin_refund` fails with
`InvalidStatus` on every terminal status, and `Failed` is terminal; but
on a stored intent whose status is `Failed` the code succeeds and
refunds.  Concrete input: `sampleState` with the sample intent stored as
`Failed`.
-/
theorem c9_admin_refund_counterexample :
    get_intent
        { sampleState with intents :=
            [(sampleB32 7, { sampleIntent with status := .Failed })] }
        (sampleB32 7) = some { sampleIntent with status := .Failed } ∧
    admin_refund (sampleAddr 0)
        { sampleState with intents :=
            [(sampleB32 7, { sampleIntent with status := .Failed })] }
        (sampleB32 7) ≠ .error .InvalidStatus ∧
    admin_refund (sampleAddr 0)
        { sampleState with intents :=
            [(sampleB32 7, { sampleIntent with status := .Failed })] }
        (sampleB32 7) =
      .ok (set_intent
          { sampleState with intents :=
              [(sampleB32 7, { sampleIntent with status := .Failed })] }
          (sampleB32 7) { sampleIntent with status := .Refunded },
        [⟨sampleIntent.source_token, sampleAddr 0,
          sampleIntent.refund_address, sampleIntent.source_amount⟩]) := by
  refine ⟨by decide, by decide, by decide⟩

/--
C9 (amended): `admin_refund` succeeds, regardless of deadline, exactly on
intents whose status is `Pending` or `Failed`, setting the status to
`Refunded` and transferring the escrowed `source_amount` to
`refund_address`; on `Filled` or `Refunded` intents it fails with
`InvalidStatus` and changes nothing.
-/
theorem c9_admin_refund_characterization
    (self : Address) (s : ContractState) (intent_id : Bytes32)
    (intent : Intent) (o : Address)
    (hown : s.owner = some o)
    (hint : get_intent s intent_id = some intent) :
    (intent.status = .Filled ∨ intent.status = .Refunded →
      admin_refund self s intent_id = .error .InvalidStatus) ∧
    (intent.status = .Pending ∨ intent.status = .Failed →
      admin_refund self s intent_id =
        .ok (set_intent s intent_id { intent with status := .Refunded },
          [⟨intent.source_token, self, intent.refund_address,
            intent.source_amount⟩])) := by
  constructor
  · intro hterm
    unfold admin_refund
    rw [hown]
    dsimp only
    rw [hint]
    dsimp only
    rw [if_pos hterm]
  · intro hlive
    unfold admin_refund
    rw [hown]
    dsimp only
    rw [hint]
    dsimp only
    rw [if_neg (by rcases hlive with h | h <;> simp [h])]

/-- Witness for the amended C9: admin-refunding the sample intent stored
as `Failed` succeeds. -/
theorem c9_admin_refund_characterization_witness :
    admin_refund (sampleAddr 0)
        { sampleState with intents :=
            [(sampleB32 7, { sampleIntent with status := .Failed })] }
        (sampleB32 7) =
      .ok (set_intent
          { sampleState with intents :=
              [(sampleB32 7, { sampleIntent with status := .Failed })] }
          (sampleB32 7)
          { { sampleIntent with status := .Failed } with
              status := .Refunded },
        [⟨{ sampleIntent with status := .Failed }.source_token,
          sampleAddr 0,
          { sampleIntent with status := .Failed }.refund_address,
          { sampleIntent with status := .Failed }.source_amount⟩]) :=
  (c9_admin_refund_characterization (sampleAddr 0)
    { sampleState with intents :=
        [(sampleB32 7, { sampleIntent with status := .Failed })] }
    (sampleB32 7) { sampleIntent with status := .Failed } (sampleAddr 9)
    (by decide) (by decide)).2 (Or.inr (by decide))

/--
C10: `fill_and_notify` imposes two destination-side gates ahead of the
fill-record write and the token transfer: a destination chain id
different from the configured chain id fails with `WrongChain`; on the
right chain, a ledger timestamp at or past the intent's deadline fails
with `IntentExpired`.  (An error return carries no state change and no
transfer.)  Consequently every successful fill happens strictly before
the deadline.
-/
theorem c10_destination_gates
    (sha256 : List Nat → Bytes32) (now : Nat) (s : ContractState)
    (relayer : Address) (intent_data : IntentData)
    (repayment_address : Bytes32) (messenger_id : Nat)
    (htype : get_relayer_type s relayer ≠ .None) :
    (intent_data.destination_chain_id ≠ s.chain_id →
      fill_and_notify sha256 now s relayer intent_data repayment_address
        messenger_id = .error .WrongChain) ∧
    (intent_data.destination_chain_id = s.chain_id →
      intent_data.deadline ≤ now →
      fill_and_notify sha256 now s relayer intent_data repayment_address
        messenger_id = .error .IntentExpired) ∧
    (∀ s' ts, fill_and_notify sha256 now s relayer intent_data
        repayment_address messenger_id = .ok (s', ts) →
      now < intent_data.deadline) := by
  refine ⟨?_, ?_, ?_⟩
  · intro hchain
    unfold fill_and_notify
    rw [if_neg (by simp [htype]), if_pos hchain]
  · intro hchain hdl
    unfold fill_and_notify
    rw [if_neg (by simp [htype]), if_neg (by simp [hchain]), if_pos hdl]
  · intro s' ts hok
    by_cases hdl : now < intent_data.deadline
    · exact hdl
    · exfalso
      unfold fill_and_notify at hok
      rw [if_neg (by simp [htype])] at hok
      by_cases hchain : intent_data.destination_chain_id = s.chain_id
      · rw [if_neg (by simp [hchain]), if_pos (by omega)] at hok
        exact Except.noConfusion hok
      · rw [if_pos hchain] at hok
        exact Except.noConfusion hok

/-- Witness for C10: on the sample state the sample fill attempt at
timestamp 100 (the deadline) fails with `IntentExpired`. -/
theorem c10_destination_gates_witness :
    fill_and_notify dummyHash 100 sampleState (sampleAddr 11)
        sampleIntentData (sampleB32 3) 1 = .error .IntentExpired :=
  (c10_destination_gates dummyHash 100 sampleState (sampleAddr 11)
    sampleIntentData (sampleB32 3) 1 (by decide)).2.1 (by decide) (by decide)

theorem is_rozo_fallback_iff (s : ContractState) (now : Nat)
    (caller : Address) (created_at : Nat) :
    is_rozo_fallback s now caller created_at = true ↔
      s.rozo_relayer = some caller ∧ s.rozo_threshold ≠ 0 ∧
        created_at + s.rozo_threshold ≤ now := by
  unfold is_rozo_fallback
  cases h : s.rozo_relayer with
  | none => simp
  | some r =>
      dsimp only
      by_cases hc : caller = r
      · subst hc
        by_cases ht : s.rozo_threshold = 0
        · simp [ht]
        · simp [ht]
      · rw [if_pos hc]
        simp only [Bool.false_eq_true, false_iff, Option.some.injEq]
        intro hcon
        exact hc hcon.1.symm

/-- Inversion of a successful `fill_and_notify`: the guard found no prior
record, the new record is exactly the caller's, and the deadline had not
passed. -/
theorem fill_and_notify_ok_inversion
    (sha256 : List Nat → Bytes32) (now : Nat) (s : ContractState)
    (relayer : Address) (intent_data : IntentData)
    (repayment_address : Bytes32) (messenger_id : Nat)
    (s' : ContractState) (ts : List Transfer)
    (hok : fill_and_notify sha256 now s relayer intent_data
      repayment_address messenger_id = .ok (s', ts)) :
    get_fill_record s (compute_fill_hash sha256 intent_data) = none ∧
    s'.fill_records = aset s.fill_records
      (compute_fill_hash sha256 intent_data) ⟨relayer, repayment_address⟩ ∧
    now < intent_data.deadline := by
  unfold fill_and_notify at hok
  by_cases h1 : get_relayer_type s relayer = RelayerType.None
  · rw [if_pos h1] at hok
    exact Except.noConfusion hok
  rw [if_neg h1] at hok
  by_cases h2 : intent_data.destination_chain_id ≠ s.chain_id
  · rw [if_pos h2] at hok
    exact Except.noConfusion hok
  rw [if_neg h2] at hok
  by_cases h3 : intent_data.deadline ≤ now
  · rw [if_pos h3] at hok
    exact Except.noConfusion hok
  rw [if_neg h3] at hok
  dsimp only at hok
  by_cases h4 : intent_data.relayer ≠ zeroBytes32 ∧
      intent_data.relayer ≠ address_to_bytes32 relayer ∧
      is_rozo_fallback s now relayer intent_data.created_at = false
  · rw [if_pos h4] at hok
    exact Except.noConfusion hok
  rw [if_neg h4] at hok
  by_cases h5 :
      (get_fill_record s (compute_fill_hash sha256 intent_data)).isSome
  · rw [if_pos h5] at hok
    exact Except.noConfusion hok
  rw [if_neg h5] at hok
  refine ⟨Option.not_isSome_iff_eq_none.mp h5, ?_, by omega⟩
  split at hok
  · exact Except.noConfusion hok
  split at hok
  · exact Except.noConfusion hok
  split at hok
  · exact Except.noConfusion hok
  injection hok with hpair
  injection hpair with hs ht
  rw [← hs]
  rfl

/-- Inversion: `fill_and_notify` returns `NotAssignedRelayer` only from
the authorization guard, so the intent had an assigned relayer, the
caller was not it, and the fallback rule did not apply. -/
theorem fill_and_notify_not_assigned_inversion
    (sha256 : List Nat → Bytes32) (now : Nat) (s : ContractState)
    (relayer : Address) (intent_data : IntentData)
    (repayment_address : Bytes32) (messenger_id : Nat)
    (herr : fill_and_notify sha256 now s relayer intent_data
      repayment_address messenger_id = .error .NotAssignedRelayer) :
    intent_data.relayer ≠ zeroBytes32 ∧
    intent_data.relayer ≠ address_to_bytes32 relayer ∧
    is_rozo_fallback s now relayer intent_data.created_at = false := by
  unfold fill_and_notify at herr
  by_cases h1 : get_relayer_type s relayer = RelayerType.None
  · rw [if_pos h1] at herr
    simp at herr
  rw [if_neg h1] at herr
  by_cases h2 : intent_data.destination_chain_id ≠ s.chain_id
  · rw [if_pos h2] at herr
    simp at herr
  rw [if_neg h2] at herr
  by_cases h3 : intent_data.deadline ≤ now
  · rw [if_pos h3] at herr
    simp at herr
  rw [if_neg h3] at herr
  dsimp only at herr
  by_cases h4 : intent_data.relayer ≠ zeroBytes32 ∧
      intent_data.relayer ≠ address_to_bytes32 relayer ∧
      is_rozo_fallback s now relayer intent_data.created_at = false
  · exact h4
  rw [if_neg h4] at herr
  by_cases h5 :
      (get_fill_record s (compute_fill_hash sha256 intent_data)).isSome
  · rw [if_pos h5] at herr
    simp at herr
  rw [if_neg h5] at herr
  exfalso
  split at herr
  · simp at herr
  split at herr
  · simp at herr
  split at herr
  · simp at herr
  exact Except.noConfusion herr

/-- When the guards before the authorization check pass and the
authorization condition fails, `fill_and_notify` returns
`NotAssignedRelayer`. -/
theorem fill_and_notify_not_assigned_of
    (sha256 : List Nat → Bytes32) (now : Nat) (s : ContractState)
    (relayer : Address) (intent_data : IntentData)
    (repayment_address : Bytes32) (messenger_id : Nat)
    (htype : get_relayer_type s relayer ≠ RelayerType.None)
    (hchain : intent_data.destination_chain_id = s.chain_id)
    (hdl : now < intent_data.deadline)
    (hcond : intent_data.relayer ≠ zeroBytes32 ∧
      intent_data.relayer ≠ address_to_bytes32 relayer ∧
      is_rozo_fallback s now relayer intent_data.created_at = false) :
    fill_and_notify sha256 now s relayer intent_data repayment_address
      messenger_id = .error .NotAssignedRelayer := by
  unfold fill_and_notify
  rw [if_neg htype, if_neg (by simp [hchain]), if_neg (by omega)]
  dsimp only
  rw [if_pos hcond]

/--
C3: if a `FillRecord` already exists for the fill hash computed from the
submitted `IntentData`, `fill_and_notify` (once the preceding relayer,
chain and deadline gates pass) fails with `AlreadyFilled`, performing no
transfer and leaving the stored record intact (an error return carries no
state change); on any successful run the computed hash had no record
before, the new record is written exactly once, and records stored under
every other hash are untouched — so at most one record ever exists per
fill hash and it is never mutated.
-/
theorem c3_double_fill_guard
    (sha256 : List Nat → Bytes32) (now : Nat) (s : ContractState)
    (relayer : Address) (intent_data : IntentData)
    (repayment_address : Bytes32) (messenger_id : Nat) :
    (get_relayer_type s relayer ≠ RelayerType.None →
      intent_data.destination_chain_id = s.chain_id →
      now < intent_data.deadline →
      (intent_data.relayer = zeroBytes32 ∨
        intent_data.relayer = address_to_bytes32 relayer ∨
        is_rozo_fallback s now relayer intent_data.created_at = true) →
      (get_fill_record s (compute_fill_hash sha256 intent_data)).isSome →
      fill_and_notify sha256 now s relayer intent_data repayment_address
        messenger_id = .error .AlreadyFilled) ∧
    (∀ h r s' ts, alookup s.fill_records h = some r →
      fill_and_notify sha256 now s relayer intent_data repayment_address
        messenger_id = .ok (s', ts) →
      alookup s'.fill_records h = some r) ∧
    (∀ s' ts, fill_and_notify sha256 now s relayer intent_data
        repayment_address messenger_id = .ok (s', ts) →
      get_fill_record s (compute_fill_hash sha256 intent_data) = none ∧
      get_fill_record s' (compute_fill_hash sha256 intent_data) =
        some ⟨relayer, repayment_address⟩) := by
  refine ⟨?_, ?_, ?_⟩
  · intro htype hchain hdl hauth hrec
    unfold fill_and_notify
    rw [if_neg htype, if_neg (by simp [hchain]), if_neg (by omega)]
    dsimp only
    rw [if_neg (by rcases hauth with h | h | h <;> simp [h]), if_pos hrec]
  · intro h r s' ts hrecord hok
    obtain ⟨hnone, hrecords, -⟩ := fill_and_notify_ok_inversion sha256 now s
      relayer intent_data repayment_address messenger_id s' ts hok
    have hne : h ≠ compute_fill_hash sha256 intent_data := by
      intro hcon
      rw [hcon] at hrecord
      rw [show get_fill_record s (compute_fill_hash sha256 intent_data) =
        alookup s.fill_records (compute_fill_hash sha256 intent_data)
        from rfl] at hnone
      rw [hrecord] at hnone
      exact Option.noConfusion hnone
    rw [hrecords]
    rw [alookup_aset_ne _ _ _ _ hne]
    exact hrecord
  · intro s' ts hok
    obtain ⟨hnone, hrecords, -⟩ := fill_and_notify_ok_inversion sha256 now s
      relayer intent_data repayment_address messenger_id s' ts hok
    refine ⟨hnone, ?_⟩
    show alookup s'.fill_records _ = _
    rw [hrecords]
    exact alookup_aset_self _ _ _

/-- Witness for C3: on a state already holding a record for the sample
fill hash, the assigned relayer's second attempt fails `AlreadyFilled`. -/
theorem c3_double_fill_guard_witness :
    fill_and_notify dummyHash 60
        { sampleState with
            relayers := [(sampleAddr 6, RelayerType.External)],
            fill_records := [(compute_fill_hash dummyHash sampleIntentData,
              ⟨sampleAddr 11, sampleB32 3⟩)] }
        (sampleAddr 6) sampleIntentData (sampleB32 3) 1 =
      .error .AlreadyFilled :=
  (c3_double_fill_guard dummyHash 60
    { sampleState with
        relayers := [(sampleAddr 6, RelayerType.External)],
        fill_records := [(compute_fill_hash dummyHash sampleIntentData,
          ⟨sampleAddr 11, sampleB32 3⟩)] }
    (sampleAddr 6) sampleIntentData (sampleB32 3) 1).1 (by decide)
    (by decide) (by decide) (Or.inr (Or.inl (by decide))) (by decide)

/--
C4: for a fill attempt by a registered relayer on an intent with an
assigned (non-zero) relayer different from the caller's canonical bytes,
the attempt clears the authorization gate (the result is not
`NotAssignedRelayer`) exactly when the caller is the registered fallback
relayer, the threshold is non-zero, and `created_at + threshold ≤ now`;
otherwise it fails with `NotAssignedRelayer`.  A zero `relayer` field
admits any registered relayer.
-/
theorem c4_fallback_authorization
    (sha256 : List Nat → Bytes32) (now : Nat) (s : ContractState)
    (relayer : Address) (intent_data : IntentData)
    (repayment_address : Bytes32) (messenger_id : Nat)
    (htype : get_relayer_type s relayer ≠ RelayerType.None)
    (hchain : intent_data.destination_chain_id = s.chain_id)
    (hdl : now < intent_data.deadline) :
    (intent_data.relayer ≠ zeroBytes32 →
      intent_data.relayer ≠ address_to_bytes32 relayer →
      (fill_and_notify sha256 now s relayer intent_data repayment_address
          messenger_id ≠ .error .NotAssignedRelayer ↔
        s.rozo_relayer = some relayer ∧ s.rozo_threshold ≠ 0 ∧
          intent_data.created_at + s.rozo_threshold ≤ now)) ∧
    (intent_data.relayer = zeroBytes32 →
      fill_and_notify sha256 now s relayer intent_data repayment_address
        messenger_id ≠ .error .NotAssignedRelayer) := by
  constructor
  · intro h0 h1
    constructor
    · intro hne
      rw [← is_rozo_fallback_iff]
      by_contra hf
      have hf' : is_rozo_fallback s now relayer intent_data.created_at
          = false := by
        cases hfb : is_rozo_fallback s now relayer intent_data.created_at
        · rfl
        · exact absurd hfb hf
      exact hne (fill_and_notify_not_assigned_of sha256 now s relayer
        intent_data repayment_address messenger_id htype hchain hdl
        ⟨h0, h1, hf'⟩)
    · intro hrhs herr
      obtain ⟨-, -, hf⟩ := fill_and_notify_not_assigned_inversion sha256 now
        s relayer intent_data repayment_address messenger_id herr
      rw [(is_rozo_fallback_iff s now relayer
        intent_data.created_at).mpr hrhs] at hf
      exact Bool.noConfusion hf
  · intro h0 herr
    obtain ⟨hz, -, -⟩ := fill_and_notify_not_assigned_inversion sha256 now
      s relayer intent_data repayment_address messenger_id herr
    exact hz h0

/-- Witness for C4: on the sample state the fallback relayer (threshold
50, created at 10) clears authorization at timestamp 60. -/
theorem c4_fallback_authorization_witness :
    fill_and_notify dummyHash 60 sampleState (sampleAddr 10)
        sampleIntentData (sampleB32 3) 1 ≠ .error .NotAssignedRelayer :=
  ((c4_fallback_authorization dummyHash 60 sampleState (sampleAddr 10)
    sampleIntentData (sampleB32 3) 1 (by decide) (by decide) (by decide)).1
    (by decide) (by decide)).mpr ⟨by decide, by decide, by decide⟩

/--
C8: every mutating intent operation — `refund`, `complete_fill` (the body
of `notify`), `notify` itself, `set_intent_status`, `set_intent_relayer`
and `admin_refund` — preserves, for every stored intent, the eleven
creation-time fields (`intent_id`, `sender`, `refund_address`,
`source_token`, `source_amount`, `destination_chain_id`,
`destination_token`, `receiver`, `destination_amount`, `deadline`,
`created_at`); only `status` and `relayer` ever change.
-/
theorem c8_core_fields_immutable
    (sha256 : List Nat → Bytes32) (self : Address) (now : Nat)
    (s : ContractState) (caller : Address)
    (intent_id fh ra rl : Bytes32) (ap : Int)
    (status : IntentStatus) (new_relayer : Bytes32)
    (messenger_id : Nat) (message_data : List Nat) :
    (∀ s' ts, refund self now s caller intent_id = .ok (s', ts) →
      corePreserved s s') ∧
    (∀ s' ts, complete_fill sha256 self s intent_id fh ra rl ap =
      .ok (s', ts) → corePreserved s s') ∧
    (∀ s' ts, notify sha256 self s caller messenger_id message_data =
      .ok (s', ts) → corePreserved s s') ∧
    (∀ s', set_intent_status s intent_id status = .ok s' →
      corePreserved s s') ∧
    (∀ s', set_intent_relayer s intent_id new_relayer = .ok s' →
      corePreserved s s') ∧
    (∀ s' ts, admin_refund self s intent_id = .ok (s', ts) →
      corePreserved s s') := by
  have hcf : ∀ (iid fhh raa rll : Bytes32) (app : Int)
      (s' : ContractState) (ts : List Transfer),
      complete_fill sha256 self s iid fhh raa rll app = .ok (s', ts) →
      corePreserved s s' := by
    intro iid fhh raa rll app s' ts hok
    unfold complete_fill at hok
    cases hint : get_intent s iid with
    | none =>
        rw [hint] at hok
        exact Except.noConfusion hok
    | some intent =>
        rw [hint] at hok
        dsimp only at hok
        by_cases hst : intent.status ≠ IntentStatus.Pending
        · rw [if_pos hst] at hok
          exact Except.noConfusion hok
        rw [if_neg hst] at hok
        by_cases hfh : fhh ≠
            compute_fill_hash sha256 (expectedIntentData s intent)
        · rw [if_pos hfh] at hok
          injection hok with hpair
          injection hpair with hs _
          rw [← hs]
          exact corePreserved_set s s rfl iid intent _ hint
            (sameCore_set_status intent .Failed)
        rw [if_neg hfh] at hok
        by_cases hamt : app < intent.destination_amount
        · rw [if_pos hamt] at hok
          injection hok with hpair
          injection hpair with hs _
          rw [← hs]
          exact corePreserved_set s s rfl iid intent _ hint
            (sameCore_set_status intent .Failed)
        rw [if_neg hamt] at hok
        injection hok with hpair
        injection hpair with hs _
        rw [← hs]
        exact corePreserved_set s
          (set_accumulated_fees s intent.source_token
            (get_accumulated_fees s intent.source_token +
              Int.tdiv (intent.source_amount * s.protocol_fee) 10000))
          rfl iid intent _ hint (sameCore_set_status intent .Filled)
  refine ⟨?_, fun s' ts hok => hcf _ _ _ _ _ s' ts hok, ?_, ?_, ?_, ?_⟩
  · intro s' ts hok
    unfold refund at hok
    cases hint : get_intent s intent_id with
    | none =>
        rw [hint] at hok
        exact Except.noConfusion hok
    | some intent =>
        rw [hint] at hok
        dsimp only at hok
        by_cases hst : intent.status ≠ IntentStatus.Pending
        · rw [if_pos hst] at hok
          exact Except.noConfusion hok
        rw [if_neg hst] at hok
        by_cases hdl : now < intent.deadline
        · rw [if_pos hdl] at hok
          exact Except.noConfusion hok
        rw [if_neg hdl] at hok
        by_cases hc : caller ≠ intent.sender ∧ caller ≠ intent.refund_address
        · rw [if_pos hc] at hok
          exact Except.noConfusion hok
        rw [if_neg hc] at hok
        injection hok with hpair
        injection hpair with hs _
        rw [← hs]
        exact corePreserved_set s s rfl intent_id intent _ hint
          (sameCore_set_status intent .Refunded)
  · intro s' ts hok
    unfold notify at hok
    cases hma : alookup s.messenger_adapters messenger_id with
    | none =>
        rw [hma] at hok
        exact Except.noConfusion hok
    | some adapter =>
        rw [hma] at hok
        dsimp only at hok
        by_cases hcaller : caller ≠ adapter
        · rw [if_pos hcaller] at hok
          exact Except.noConfusion hok
        rw [if_neg hcaller] at hok
        cases hdec : decode_notify_payload message_data with
        | error e =>
            rw [hdec] at hok
            exact Except.noConfusion hok
        | ok tup =>
            rw [hdec] at hok
            obtain ⟨fh', iid', ra', rl', ap'⟩ := tup
            dsimp only at hok
            exact hcf iid' fh' ra' rl' ap' s' ts hok
  · intro s' hok
    unfold set_intent_status at hok
    cases hown : s.owner with
    | none =>
        rw [hown] at hok
        exact Except.noConfusion hok
    | some o =>
        rw [hown] at hok
        dsimp only at hok
        cases hint : get_intent s intent_id with
        | none =>
            rw [hint] at hok
            exact Except.noConfusion hok
        | some intent =>
            rw [hint] at hok
            dsimp only at hok
            injection hok with hs
            rw [← hs]
            exact corePreserved_set s s rfl intent_id intent _ hint
              (sameCore_set_status intent status)
  · intro s' hok
    unfold set_intent_relayer at hok
    cases hown : s.owner with
    | none =>
        rw [hown] at hok
        exact Except.noConfusion hok
    | some o =>
        rw [hown] at hok
        dsimp only at hok
        cases hint : get_intent s intent_id with
        | none =>
            rw [hint] at hok
            exact Except.noConfusion hok
        | some intent =>
            rw [hint] at hok
            dsimp only at hok
            injection hok with hs
            rw [← hs]
            exact corePreserved_set s s rfl intent_id intent _ hint
              (sameCore_set_relayer intent new_relayer)
  · intro s' ts hok
    unfold admin_refund at hok
    cases hown : s.owner with
    | none =>
        rw [hown] at hok
        exact Except.noConfusion hok
    | some o =>
        rw [hown] at hok
        dsimp only at hok
        cases hint : get_intent s intent_id with
        | none =>
            rw [hint] at hok
            exact Except.noConfusion hok
        | some intent =>
            rw [hint] at hok
            dsimp only at hok
            by_cases hterm : intent.status = IntentStatus.Filled ∨
                intent.status = IntentStatus.Refunded
            · rw [if_pos hterm] at hok
              exact Except.noConfusion hok
            rw [if_neg hterm] at hok
            injection hok with hpair
            injection hpair with hs _
            rw [← hs]
            exact corePreserved_set s s rfl intent_id intent _ hint
              (sameCore_set_status intent .Refunded)

/-- Witness for C8: the admin status override to `Filled` keeps all
eleven creation-time fields of the sample intent. -/
theorem c8_core_fields_immutable_witness :
    (get_intent (set_intent sampleState (sampleB32 7)
        { sampleIntent with status := .Filled })
      (sampleB32 7)).isSome = true ∧
    sameCore sampleIntent { sampleIntent with status := .Filled } := by
  have hpres := (c8_core_fields_immutable dummyHash (sampleAddr 0) 0
    sampleState (sampleAddr 0) (sampleB32 7) (sampleB32 0) (sampleB32 0)
    (sampleB32 0) 0 .Filled (sampleB32 0) 0 []).2.2.2.1
    (set_intent sampleState (sampleB32 7)
      { sampleIntent with status := .Filled }) (by decide)
  exact ⟨(hpres (sampleB32 7) sampleIntent (by decide)).1,
    (hpres (sampleB32 7) sampleIntent (by decide)).2
      { sampleIntent with status := .Filled } (by decide)⟩

end RozoIntents
